import Mathlib

/-!
Verification of the rocoknight login-capture / launch / embed core.

Strings are modelled as lists of natural numbers: the UTF-8 bytes of the
Rust string.  All scanning code in the source operates on byte slices
(as_bytes) or on characters that are copied verbatim unless they are ASCII,
so the byte-level model is faithful; pushes of a byte b as a character are
modelled as emitting b itself (exact on the ASCII fragment these claims
exercise).  Whitespace predicates are the ASCII restrictions of the Rust
predicates used at each site.
-/

/-- Bytes of an ASCII string literal (scalar values of its characters). -/
def strBytes (s : String) : List Nat := s.toList.map Char.toNat

/-- Rust u8::is_ascii_whitespace: space, tab, LF, FF, CR. -/
def isWsByte (b : Nat) : Bool := b == 32 || b == 9 || b == 10 || b == 12 || b == 13

/-- ASCII fragment of char::is_whitespace as used by str::trim: adds VT (11). -/
def isTrimWs (b : Nat) : Bool := b == 32 || b == 9 || b == 10 || b == 11 || b == 12 || b == 13

/-- Rust u8::to_ascii_lowercase. -/
def toLowerByte (b : Nat) : Nat := if 65 ≤ b ∧ b ≤ 90 then b + 32 else b

/-- starts_with_ignore_case from login3_capture.rs: bytewise ASCII case-insensitive
prefix test. -/
def startsWithIgnoreCase (hay needle : List Nat) : Bool :=
  decide (needle.length ≤ hay.length) &&
    (hay.take needle.length).map toLowerByte == needle.map toLowerByte

/-! ## redact_tokens (login3_capture.rs lines 30-62) -/

/-- The fixed list of sensitive keys, in the order the source scans them. -/
def sensitiveKeys : List (List Nat) :=
  [strBytes "angel_uin", strBytes "angel_key", strBytes "skey", strBytes "pskey"]

/-- Delimiters ending a masked value: ampersand, double quote, single quote,
less-than, greater-than. -/
def isDelimByte (b : Nat) : Bool := b == 38 || b == 34 || b == 39 || b == 60 || b == 62

/-- The key (if any) matching at the head of the text: the source condition
bytes[i..].starts_with(kb) with a byte 61 directly after the key is exactly
the prefix test against key ++ [61], trying keys in source order. -/
def matchedKey (l : List Nat) : Option (List Nat) :=
  sensitiveKeys.find? (fun k => (k ++ [61]).isPrefixOf l)

/-- redact_tokens: copy bytes, but after a sensitive key and the equals sign
skip the value up to the next delimiter and emit a single star (42). -/
def redactTokens : List Nat → List Nat
  | [] => []
  | b :: bs =>
    match matchedKey (b :: bs) with
    | some k =>
        k ++ [61, 42] ++
          redactTokens (((b :: bs).drop (k.length + 1)).dropWhile (fun x => !isDelimByte x))
    | none => b :: redactTokens bs
  termination_by l => l.length
  decreasing_by
  all_goals simp only [List.length_cons, List.length_drop]
  · have h1 := (List.dropWhile_sublist (l := (b :: bs).drop (k.length + 1))
      (fun x => !isDelimByte x)).length_le
    simp only [List.length_drop, List.length_cons] at h1
    omega
  · omega

/-! ## extract_attr_value / parse_login3_value (login3_capture.rs lines 241-361) -/

/-- Escape resolution inside a quoted attribute value: n, r, t become control
characters; backslash and both quote characters map to themselves, as does any
other escaped byte. -/
def escByte (b : Nat) : Nat :=
  if b == 110 then 10 else if b == 114 then 13 else if b == 116 then 9 else b

/-- The inner value scan of extract_attr_value: read bytes until the unescaped
closing quote, resolving backslash escapes; none when the text ends before the
closing quote. -/
def scanValue : List Nat → Nat → Bool → Option (List Nat)
  | [], _, _ => none
  | b :: bs, q, true => (scanValue bs q false).map (fun out => escByte b :: out)
  | b :: bs, q, false =>
      if b == 92 then scanValue bs q true
      else if b == q then some []
      else (scanValue bs q false).map (fun out => b :: out)

/-- Outcome of examining the text directly after a case-insensitive attribute
match: a value, a hard failure (the source returns None for the whole call), or
advance one byte and keep scanning. -/
inductive TryResult where
  | found (v : List Nat)
  | hardFail
  | next
deriving DecidableEq, Repr

/-- The per-candidate step of extract_attr_value: optional whitespace, an
equals sign, optional whitespace, a quote (a backslash-escaped quote is
unwrapped), then the value scan.  Missing equals sign or bad quote advances
the outer scan; text ending after the equals sign, or an unterminated value,
aborts the whole extraction. -/
def tryAt (rest : List Nat) : TryResult :=
  match rest.dropWhile (fun b => isWsByte b) with
  | 61 :: r2 =>
      match r2.dropWhile (fun b => isWsByte b) with
      | [] => .hardFail
      | q :: r4 =>
          let qr : Nat × List Nat :=
            if q == 92 then
              match r4 with
              | n :: r5 => if n == 34 || n == 39 then (n, r5) else (q, r4)
              | [] => (q, r4)
            else (q, r4)
          if qr.1 == 34 || qr.1 == 39 then
            match scanValue qr.2 qr.1 false with
            | some v => .found v
            | none => .hardFail
          else .next
  | _ => .next

/-- The outer scan of extract_attr_value: try every position i with
i + attr.len strictly below the text length, case-insensitively; advancing i
by one is recursion on the tail. -/
def extractLoop : List Nat → List Nat → Option (List Nat)
  | [], _ => none
  | b :: t, attr =>
    if attr.length < (b :: t).length then
      if startsWithIgnoreCase (b :: t) attr then
        match tryAt ((b :: t).drop attr.length) with
        | .found v => some v
        | .hardFail => none
        | .next => extractLoop t attr
      else extractLoop t attr
    else none

/-- extract_attr_value from login3_capture.rs. -/
def extractAttrValue (text attr : List Nat) : Option (List Nat) := extractLoop text attr

/-- Rust str::find followed by slicing: the suffix of hay starting at the
first occurrence of needle, if any. -/
def findTail (hay needle : List Nat) : Option (List Nat) :=
  if needle.isPrefixOf hay then some hay
  else
    match hay with
    | [] => none
    | _ :: t => findTail t needle

/-- Rust str::contains as a substring test. -/
def containsSub (hay needle : List Nat) : Bool := (findTail hay needle).isSome

/-- unescape_source from login3_capture.rs: a whole-document backslash
unescape pass. -/
def unescapeSource : List Nat → List Nat
  | [] => []
  | 92 :: [] => [92]
  | 92 :: n :: rest =>
      (if n == 110 then [10]
       else if n == 114 then [13]
       else if n == 116 then [9]
       else if n == 34 then [34]
       else if n == 39 then [39]
       else if n == 92 then [92]
       else [92, n]) ++ unescapeSource rest
  | b :: rest => b :: unescapeSource rest

/-- The anchor substring restricting the search window. -/
def anchorBytes : List Nat := strBytes "function swf"

/-- Lower-case attribute name searched first. -/
def flashLower : List Nat := strBytes "flashVars"

/-- Alternately cased attribute name searched second. -/
def flashUpper : List Nat := strBytes "FlashVars"

/-- parse_login3_value from login3_capture.rs: the anchor lookup uses the
question-mark operator, so a body without the anchor yields none immediately;
otherwise search the window from the anchor, then the whole body, then the
whole body after a backslash-unescape pass. -/
def parseLogin3Value (html : List Nat) : Option (List Nat) :=
  match findTail html anchorBytes with
  | none => none
  | some slice =>
    match extractAttrValue slice flashLower with
    | some v => some v
    | none =>
      match extractAttrValue slice flashUpper with
      | some v => some v
      | none =>
        match extractAttrValue html flashLower with
        | some v => some v
        | none =>
          match extractAttrValue html flashUpper with
          | some v => some v
          | none =>
            let u := unescapeSource html
            match extractAttrValue u flashLower with
            | some v => some v
            | none => extractAttrValue u flashUpper

/-! ## build_swf_url (login3_capture.rs lines 363-381) -/

/-- Rust str::trim restricted to ASCII whitespace. -/
def trimBytes (l : List Nat) : List Nat :=
  ((l.dropWhile isTrimWs).reverse.dropWhile isTrimWs).reverse

/-- build_swf_url: trim the value, strip leading question marks then leading
ampersands, fail on empty, and prefix the fixed base path and a nonce key.
The nonce is time-derived in the source and is a parameter here. -/
def buildSwfUrl (nonce value : List Nat) : Option (List Nat) :=
  let t := ((trimBytes value).dropWhile (fun b => b == 63)).dropWhile (fun b => b == 38)
  if t.isEmpty then none
  else some (strBytes "https://res.17roco.qq.com/main.swf?" ++ nonce ++ strBytes "=&" ++ t)

/-! ## Data model (state/mod.rs) -/

/-- AppStatus from state/mod.rs. -/
inductive AppStatus where
  | Login
  | Capturing
  | FoundValue
  | Launching
  | Running
  | Error
deriving DecidableEq, Repr

/-- ProjectorHandle from state/mod.rs: the process is represented by its pid
(the OS handle is opaque), together with the embedded window handle and the
saved pre-embedding style bits. -/
structure ProjectorHandle where
  pid : Nat
  hwnd : Int
  original_style : Int
deriving DecidableEq, Repr

/-- AppState from state/mod.rs.  Strings are byte lists; capture_stop stores
the current value of the shared cancellation flag (some flag when a capture
session is live); the interceptor is tracked only by presence. -/
structure AppState where
  status : AppStatus
  message : Option (List Nat)
  themeDark : Bool
  swf_url : Option (List Nat)
  capture_stop : Option Bool
  projector : Option ProjectorHandle
  last_projector_rect : Option (Int × Int × Int × Int)
  qq_num : Option Nat
  wpe_interceptor : Option Unit
deriving DecidableEq, Repr

/-! ## Capture session operations (login3_capture.rs) -/

/-- The capture timeout in seconds (TIMEOUT_SECS). -/
def timeoutSecs : Nat := 180

/-- The message installed by the timeout watcher. -/
def timeoutMessage : List Nat := strBytes "Login timed out (180s). Please retry."

/-- stop_inner: set the live cancellation flag (if any) and drop it from the
state; the second component reports whether a live flag was signalled, which
is the value the current watcher will subsequently observe. -/
def stopInner (s : AppState) : AppState × Bool :=
  ({ s with capture_stop := none }, s.capture_stop.isSome)

/-- start (start_capture): stop any previous session, then enter Capturing
with a fresh unset cancellation flag and no pending URL. -/
def startCapture (s : AppState) : AppState :=
  { (stopInner s).1 with
      status := AppStatus.Capturing,
      message := some (strBytes "Capturing login3 response"),
      swf_url := none,
      capture_stop := some false }

/-- stop (stop_capture): stop_inner, then return to Login clearing message and
URL.  The flag component reports whether the live watcher was cancelled. -/
def stopCapture (s : AppState) : AppState × Bool :=
  let p := stopInner s
  ({ p.1 with status := AppStatus.Login, message := none, swf_url := none }, p.2)

/-- stop_timer_only: set the live cancellation flag without dropping it. -/
def stopTimerOnly (s : AppState) : AppState :=
  { s with capture_stop := s.capture_stop.map (fun _ => true) }

/-- The state transition performed by the timeout watcher when it fires after
the 180 second deadline, given the flag value it observes: with the flag set
it returns without touching state; otherwise it transitions to Error only when
the status is still Capturing and no URL is pending. -/
def timeoutFire (flag : Bool) (s : AppState) : AppState :=
  if flag then s
  else if s.status = AppStatus.Capturing ∧ s.swf_url = none then
    { s with status := AppStatus.Error, message := some timeoutMessage, swf_url := none }
  else s

/-- Acceptance condition of handle_login3_response, as a boolean read directly
off the source guards: a value parses, it contains both required markers, the
status is not Running and no URL is pending. -/
def acceptB (html : List Nat) (s : AppState) : Bool :=
  match parseLogin3Value html with
  | none => false
  | some v =>
      containsSub v (strBytes "config=") && containsSub v (strBytes "angel_uin=") &&
      decide (s.status ≠ AppStatus.Running) && s.swf_url.isNone

/-- handle_login3_response: parse, validate, build the URL, and accept it into
the state unless the status is Running or a URL is already pending.  The final
state collapses the two consecutive critical sections (FoundValue, then
Launching with the timer flag set); the boolean reports whether the launch
step was scheduled on the main thread. -/
def handleLogin3Response (nonce html : List Nat) (s : AppState) : AppState × Bool :=
  match parseLogin3Value html with
  | none => (s, false)
  | some v =>
    if !(containsSub v (strBytes "config=")) || !(containsSub v (strBytes "angel_uin=")) then
      (s, false)
    else
      match buildSwfUrl nonce v with
      | none => (s, false)
      | some url =>
        if s.status = AppStatus.Running then (s, false)
        else if s.swf_url.isSome then (s, false)
        else
          (stopTimerOnly
            { s with swf_url := some url, status := AppStatus.Launching, message := none },
           true)

/-! ## Launcher operations (launcher.rs, main.rs) -/

/-- UI_BAR_HEIGHT from launcher.rs. -/
def uiBarHeight : Int := 36

/-- set_error from launcher.rs. -/
def setError (s : AppState) (msg : List Nat) : AppState :=
  { s with status := AppStatus.Error, message := some msg }

/-- stop_projector from launcher.rs: detach and kill when a projector exists,
stop any interceptor, then unconditionally reset status, message, rect and qq
number.  The boolean reports whether a native detach/terminate was performed. -/
def stopProjectorFn (s : AppState) : AppState × Bool :=
  ({ s with
      projector := none,
      wpe_interceptor := none,
      status := AppStatus.Login,
      message := none,
      last_projector_rect := none,
      qq_num := none },
   s.projector.isSome)

/-- Environment of external outcomes consumed by launch_projector_auto, one
field per fallible collaborator, in source order.  Messages are byte lists. -/
structure LaunchEnv where
  resolvePath : Except (List Nat) (List Nat)
  launchProcess : Except (List Nat) Nat
  findWindow : Except (List Nat) Int
  mainHwnd : Except (List Nat) Int
  attach : Except (List Nat) Int
  parentClientSize : Option (Int × Int)
  windowSizePhysical : Except (List Nat) (Nat × Nat)
  qqFromUrl : List Nat → Option Nat
  injector : Except (List Nat) Unit
  interceptor : Except (List Nat) Unit

/-- The resize stage of launch_projector_auto can only fail through the
question-mark operator on the fallback window-size query, taken when the
client-size query yields nothing. -/
def sizeGate (env : LaunchEnv) : Except (List Nat) Unit :=
  match env.parentClientSize with
  | some _ => Except.ok ()
  | none =>
    match env.windowSizePhysical with
    | Except.error m => Except.error m
    | Except.ok _ => Except.ok ()

/-- launch_projector_auto: read the pending URL, stop an existing projector,
then run the staged pipeline.  Failures in stages 1 to 5 call set_error before
returning the error; a failure of the window-size fallback in stage 6
propagates with the question-mark operator, and failures creating the packet
injector or interceptor in stage 7 return early, none of which touch the
state.  Stage 8 records the projector and enters Running. -/
def launchProjectorAuto (env : LaunchEnv) (s : AppState) : AppState × Except (List Nat) Unit :=
  let swf := s.swf_url
  let s1 := if s.projector.isSome then (stopProjectorFn s).1 else s
  match swf with
  | none =>
      let msg := strBytes "Missing main.swf URL."
      (setError s1 msg, Except.error msg)
  | some url =>
    match env.resolvePath with
    | Except.error m => (setError s1 m, Except.error m)
    | Except.ok _ =>
      match env.launchProcess with
      | Except.error m => (setError s1 m, Except.error m)
      | Except.ok pid =>
        match env.findWindow with
        | Except.error m => (setError s1 m, Except.error m)
        | Except.ok childHwnd =>
          match env.mainHwnd with
          | Except.error m => (setError s1 m, Except.error m)
          | Except.ok _ =>
            match env.attach with
            | Except.error m => (setError s1 m, Except.error m)
            | Except.ok style =>
              match sizeGate env with
              | Except.error m => (s1, Except.error m)
              | Except.ok _ =>
                match env.injector with
                | Except.error e =>
                    (s1, Except.error (strBytes "Failed to create packet injector: " ++ e))
                | Except.ok _ =>
                  match env.interceptor with
                  | Except.error e =>
                      (s1, Except.error (strBytes "Failed to create packet interceptor: " ++ e))
                  | Except.ok _ =>
                    ({ s1 with
                        projector := some ⟨pid, childHwnd, style⟩,
                        status := AppStatus.Running,
                        message := none,
                        last_projector_rect := none,
                        qq_num := some ((env.qqFromUrl url).getD 0),
                        wpe_interceptor := some () },
                     Except.ok ())

/-- reset_to_login (main.rs): stop the projector, signal the capture timer,
then reset status, message and swf_url; the later webview stages do not touch
AppState. -/
def resetToLoginState (s : AppState) : AppState :=
  { stopTimerOnly (stopProjectorFn s).1 with
      status := AppStatus.Login, message := none, swf_url := none }

/-! ## Geometry (launcher.rs resize_projector_to_window) -/

/-- The toolbar inset in physical pixels: 36 scaled and rounded.  The source
computes this in f64; the rational model is exact at the scale factors the
claims use. -/
def barHeight (scale : ℚ) : Int := round ((36 : ℚ) * scale)

/-- Environment of window-geometry queries for resize_projector_to_window. -/
structure ResizeEnv where
  mainHwndOk : Bool
  parentClientSize : Option (Int × Int)
  windowSizePhysical : Option (Nat × Nat)
  scale : ℚ

/-- The child rect computed by resize_projector_to_window: client size of the
main window when available, else the physical inner size, minus the toolbar
inset clamped to at least one pixel of height. -/
def computeRect (env : ResizeEnv) : Option (Int × Int × Int × Int) :=
  (if env.mainHwndOk then
    match env.parentClientSize with
    | some wh =>
        let bh := barHeight env.scale
        some (0, bh, wh.1, max (wh.2 - bh) 1)
    | none => none
   else none).orElse (fun _ =>
    env.windowSizePhysical.map (fun wh =>
      let bh := barHeight env.scale
      (0, bh, (wh.1 : Int), max ((wh.2 : Int) - bh) 1)))

/-- resize_projector_to_window: nothing happens without a projector or a
computable rect, or when the rect equals the last applied one; otherwise the
child is moved (the second component reports the rect passed to move_child)
and the rect is recorded. -/
def resizeProjectorToWindow (env : ResizeEnv) (s : AppState) :
    AppState × Option (Int × Int × Int × Int) :=
  match s.projector with
  | none => (s, none)
  | some _ =>
    match computeRect env with
    | none => (s, none)
    | some r =>
      if s.last_projector_rect = some r then (s, none)
      else ({ s with last_projector_rect := some r }, some r)

/-! ## Window search (embed_win32/mod.rs) -/

/-- One top-level window as seen by the enumeration callback. -/
structure EnumWindow where
  pid : Nat
  ownerNull : Bool
  visible : Bool
  hwnd : Int
deriving DecidableEq, Repr

/-- The acceptance test of enum_windows_proc, branch for branch: skip other
processes; accept an ownerless visible window; also accept any ownerless
window; otherwise keep enumerating. -/
def enumAccept (target : Nat) (w : EnumWindow) : Bool :=
  if w.pid ≠ target then false
  else if w.ownerNull && w.visible then true
  else if w.ownerNull then true
  else false

/-- EnumWindows with enum_windows_proc: the first accepted window in
enumeration order, if any. -/
def enumFindWindow (ws : List EnumWindow) (target : Nat) : Option EnumWindow :=
  ws.find? (enumAccept target)

/-- The polling loop of find_window_by_pid.  Snapshots index the window list
seen by the enumeration at each 100 ms tick; after a failed enumeration the
loop errors out once the elapsed time t * 100 ms exceeds the timeout, which
for tick t means t is past deadline = timeout_ms / 100. -/
def findAux (snap : Nat → List EnumWindow) (target : Nat) :
    Nat → Nat → Except Unit (EnumWindow × Nat)
  | t, 0 =>
    match enumFindWindow (snap t) target with
    | some w => Except.ok (w, t)
    | none => Except.error ()
  | t, left + 1 =>
    match enumFindWindow (snap t) target with
    | some w => Except.ok (w, t)
    | none => findAux snap target (t + 1) left

/-- find_window_by_pid from embed_win32/mod.rs, over a timeline of
enumeration snapshots; the fixed Chinese not-found message is opaque.  The
source deadline test (elapsed strictly above timeout_ms, checked after each
enumeration at multiples of 100 ms) fails first at tick timeout_ms / 100 + 1,
so the loop runs with that many remaining ticks. -/
def findWindowByPid (snap : Nat → List EnumWindow) (target timeoutMs : Nat) :
    Except Unit (EnumWindow × Nat) :=
  findAux snap target 0 (timeoutMs / 100 + 1)

/-! ## Helper values for concrete instances -/

/-- Whether an Except value is an error. -/
def exErr {ε α : Type} : Except ε α → Bool
  | Except.error _ => true
  | Except.ok _ => false

/-- The failure conditions of launch_projector_auto that the source routes
through set_error, in source order: missing URL, path resolution, process
spawn, window find, main window handle, attach. -/
def earlyFails (env : LaunchEnv) (s : AppState) : Bool :=
  s.swf_url.isNone || exErr env.resolvePath || exErr env.launchProcess ||
    exErr env.findWindow || exErr env.mainHwnd || exErr env.attach

/-- A quiescent state with every optional field empty. -/
def baseState : AppState :=
  { status := AppStatus.Login, message := none, themeDark := true, swf_url := none,
    capture_stop := none, projector := none, last_projector_rect := none,
    qq_num := none, wpe_interceptor := none }

/-- An HTML body with a well-formed flashVars attribute and no anchor. -/
def cex6Html : List Nat := strBytes "<embed flashVars=\"config=x&angel_uin=1\">"

/-- An HTML body with the anchor and a valid flashVars attribute. -/
def okHtml : List Nat := strBytes "function swf flashVars=\"config=x&angel_uin=1\""

/-- A state in Error with residual fields and no projector, for stop_projector. -/
def cex4State : AppState :=
  { baseState with
      status := AppStatus.Error,
      message := some (strBytes "boom"),
      last_projector_rect := some (1, 2, 3, 4),
      qq_num := some 7 }

/-- A launch environment where everything up to WPE initialization succeeds
and the packet injector fails. -/
def cex3Env : LaunchEnv :=
  { resolvePath := Except.ok (strBytes "p"), launchProcess := Except.ok 42,
    findWindow := Except.ok 7, mainHwnd := Except.ok 1, attach := Except.ok 0,
    parentClientSize := some (1024, 768), windowSizePhysical := Except.ok (1024, 768),
    qqFromUrl := fun _ => none, injector := Except.error (strBytes "denied"),
    interceptor := Except.ok () }

/-- The state right after a value was accepted: Launching with a pending URL. -/
def cex3State : AppState :=
  { baseState with status := AppStatus.Launching, swf_url := some (strBytes "u") }

/-- A fully successful launch environment. -/
def cex5Env : LaunchEnv := { cex3Env with injector := Except.ok () }

/-- The host geometry of the geometry claim: client size 1024 x 768, scale 1. -/
def cex9Env : ResizeEnv :=
  { mainHwndOk := true, parentClientSize := some (1024, 768),
    windowSizePhysical := none, scale := 1 }

/-- A state with an embedded projector whose rect is already applied. -/
def cex9State : AppState :=
  { baseState with
      status := AppStatus.Running,
      projector := some ⟨42, 7, 0⟩,
      last_projector_rect := some (0, 36, 1024, 732) }

/-- One snapshot containing a single invisible ownerless window of pid 5. -/
def cex7Snap : Nat → List EnumWindow := fun _ => [⟨5, true, false, 7⟩]

/-! ## Claim C10: the timeout watcher mutation guard -/

/-- C10: the timeout watcher either leaves the state untouched, or its flag is
unset, the status is exactly Capturing with no pending URL, and the only
mutation is the transition to Error with the timeout message; hence it can
never overwrite Running, Launching, FoundValue, Login or Error. -/
theorem timeout_watcher_only_mutates_capturing (flag : Bool) (s : AppState) :
    timeoutFire flag s = s ∨
    (flag = false ∧ s.status = AppStatus.Capturing ∧ s.swf_url = none ∧
      timeoutFire flag s =
        { s with status := AppStatus.Error, message := some timeoutMessage }) := by
  cases flag with
  | true => left; simp [timeoutFire]
  | false =>
    by_cases h : s.status = AppStatus.Capturing ∧ s.swf_url = none
    · right
      refine ⟨rfl, h.1, h.2, ?_⟩
      simp [timeoutFire, h.1, h.2]
    · left
      simp [timeoutFire, h]

/-! ## Claim C2: the 180 second capture timeout -/

/-- C2: the timeout constant is 180 seconds; a capture session started by
start_capture arms an unset flag in status Capturing with no URL, and a
watcher firing with the flag still unset transitions that state to Error with
the timeout message; stop_capture signals the live flag, and a watcher that
observes a set flag performs no transition at all. -/
theorem capture_timeout_behaviour (s0 s : AppState) :
    timeoutSecs = 180 ∧
    (startCapture s0).status = AppStatus.Capturing ∧
    (startCapture s0).swf_url = none ∧
    (startCapture s0).capture_stop = some false ∧
    timeoutFire false (startCapture s0) =
      { startCapture s0 with status := AppStatus.Error, message := some timeoutMessage } ∧
    (stopCapture (startCapture s0)).2 = true ∧
    timeoutFire true s = s := by
  refine ⟨rfl, rfl, rfl, rfl, ?_, ?_, ?_⟩
  · simp [timeoutFire, startCapture, stopInner]
  · simp [stopCapture, stopInner, startCapture]
  · simp [timeoutFire]

/-! ## Claim C4: stop_projector with no projector -/

/-- C4 counterexample: on a projector-free state in Error with residual
fields, stop_projector is not a no-op: it resets the status to Login and
clears message, rect and qq number. -/
theorem stop_projector_cex :
    cex4State.projector = none ∧ (stopProjectorFn cex4State).1 ≠ cex4State := by
  decide

/-- C4 amended: when no projector exists, stop_projector performs no native
detach or terminate, leaves swf_url, capture_stop, projector and theme
untouched, but still resets status to Login and clears message, the last
rect, the qq number and the interceptor. -/
theorem stop_projector_no_projector (s : AppState) (h : s.projector = none) :
    (stopProjectorFn s).2 = false ∧
    (stopProjectorFn s).1 =
      { s with
          status := AppStatus.Login,
          message := none,
          last_projector_rect := none,
          qq_num := none,
          wpe_interceptor := none } := by
  cases s
  simp_all [stopProjectorFn]

/-- Witness for the amended C4 statement at the counterexample state. -/
theorem stop_projector_no_projector_witness :
    (stopProjectorFn cex4State).2 = false ∧
    (stopProjectorFn cex4State).1 =
      { cex4State with
          status := AppStatus.Login,
          message := none,
          last_projector_rect := none,
          qq_num := none,
          wpe_interceptor := none } :=
  stop_projector_no_projector cex4State (by decide)

/-! ## Claim C9: resize geometry and reposition suppression -/

/-- C9 counterexample: with host client size 1024 x 768 at scale 1 and the
rect 0 36 1024 732 already applied, two consecutive calls perform zero
repositions, not exactly one. -/
theorem resize_projector_cex :
    (resizeProjectorToWindow cex9Env cex9State).2 = none ∧
    (resizeProjectorToWindow cex9Env (resizeProjectorToWindow cex9Env cex9State).1).2 =
      none := by
  constructor <;>
    simp [resizeProjectorToWindow, computeRect, barHeight, cex9Env, cex9State, baseState]

/-- C9 amended: the computed rect at client size 1024 x 768, inset 36, scale 1
is 0 36 1024 732; a call repositions exactly when a projector is embedded and
the computed rect differs from the last applied one, recording it; a call
whose rect equals the last applied one does nothing; hence across two
consecutive calls with unchanged host geometry at most one reposition happens
and the second call never moves. -/
theorem resize_projector_spec (env : ResizeEnv) (s : AppState) :
    (resizeProjectorToWindow env (resizeProjectorToWindow env s).1).2 = none ∧
    (env.mainHwndOk = true → env.parentClientSize = some (1024, 768) → env.scale = 1 →
      computeRect env = some (0, 36, 1024, 732)) ∧
    (∀ r, computeRect env = some r → s.projector.isSome = true →
      s.last_projector_rect ≠ some r →
      (resizeProjectorToWindow env s).2 = some r ∧
      (resizeProjectorToWindow env s).1 = { s with last_projector_rect := some r }) ∧
    (∀ r, computeRect env = some r → s.last_projector_rect = some r →
      resizeProjectorToWindow env s = (s, none)) := by
  refine ⟨?_, ?_, ?_, ?_⟩
  · rcases hp : s.projector with _ | p
    · have h1 : resizeProjectorToWindow env s = (s, none) := by
        simp [resizeProjectorToWindow, hp]
      rw [h1]
      simp [resizeProjectorToWindow, hp]
    · rcases hr : computeRect env with _ | r
      · have h1 : resizeProjectorToWindow env s = (s, none) := by
          simp [resizeProjectorToWindow, hp, hr]
        rw [h1]
        simp [resizeProjectorToWindow, hp, hr]
      · by_cases hl : s.last_projector_rect = some r
        · have h1 : resizeProjectorToWindow env s = (s, none) := by
            simp [resizeProjectorToWindow, hp, hr, hl]
          rw [h1]
          simp [resizeProjectorToWindow, hp, hr, hl]
        · have h1 : resizeProjectorToWindow env s =
              ({ s with last_projector_rect := some r }, some r) := by
            simp [resizeProjectorToWindow, hp, hr, hl]
          rw [h1]
          simp [resizeProjectorToWindow, hp, hr]
  · intro h1 h2 h3
    simp [computeRect, h1, h2, h3, barHeight]
  · intro r hr hp hl
    rcases hps : s.projector with _ | p
    · rw [hps] at hp; simp at hp
    · constructor <;> simp [resizeProjectorToWindow, hps, hr, hl]
  · intro r hr hl
    rcases hps : s.projector with _ | p
    · simp [resizeProjectorToWindow, hps]
    · simp [resizeProjectorToWindow, hps, hr, hl]

/-- Witness for the amended C9 statement: from a fresh state with no last
rect, the first call at the claimed geometry repositions to 0 36 1024 732. -/
theorem resize_projector_spec_witness :
    (resizeProjectorToWindow cex9Env
        { cex9State with last_projector_rect := none }).2 = some (0, 36, 1024, 732) :=
  ((resize_projector_spec cex9Env { cex9State with last_projector_rect := none }).2.2.1
    (0, 36, 1024, 732)
    (by simp [computeRect, cex9Env, barHeight])
    (by simp [cex9State])
    (by simp)).1

/-! ## Claim C7: find_window_by_pid -/

/-- The enumeration callback reduces to: first window of the target process
that has no owner, visibility notwithstanding. -/
theorem enumAccept_eq (t : Nat) (w : EnumWindow) :
    enumAccept t w = (w.pid == t && w.ownerNull) := by
  rcases w with ⟨p, o, vis, hw⟩
  by_cases hp : p = t
  · subst hp
    cases o <;> cases vis <;> simp [enumAccept]
  · simp [enumAccept, hp]

/-- Characterization of the polling loop erroring out: every snapshot up to
the last tick inside the deadline window lacks an accepted window. -/
theorem findAux_error_iff (snap : Nat → List EnumWindow) (target : Nat) :
    ∀ left t, findAux snap target t left = Except.error () ↔
      ∀ k, t ≤ k → k ≤ t + left → enumFindWindow (snap k) target = none := by
  intro left
  induction left with
  | zero =>
    intro t
    constructor
    · intro h k h1 h2
      have hk : k = t := by omega
      subst hk
      rcases he : enumFindWindow (snap k) target with _ | w
      · exact rfl
      · simp [findAux, he] at h
    · intro h
      have he := h t (le_refl t) (by omega)
      simp [findAux, he]
  | succ left ih =>
    intro t
    constructor
    · intro h
      rcases he : enumFindWindow (snap t) target with _ | w
      · have h2 : findAux snap target (t + 1) left = Except.error () := by
          simpa [findAux, he] using h
        intro k h1 hk2
        rcases Nat.eq_or_lt_of_le h1 with rfl | hlt
        · exact he
        · exact (ih (t + 1)).mp h2 k (by omega) (by omega)
      · simp [findAux, he] at h
    · intro h
      have he := h t (le_refl t) (by omega)
      have h2 : findAux snap target (t + 1) left = Except.error () :=
        (ih (t + 1)).mpr (fun k hk1 hk2 => h k (by omega) (by omega))
      simp [findAux, he, h2]

/-- Characterization of the polling loop succeeding: the result is the window
the enumeration accepted at its tick, inside the deadline window. -/
theorem findAux_ok (snap : Nat → List EnumWindow) (target : Nat) :
    ∀ left t w j, findAux snap target t left = Except.ok (w, j) →
      t ≤ j ∧ j ≤ t + left ∧ enumFindWindow (snap j) target = some w := by
  intro left
  induction left with
  | zero =>
    intro t w j h
    rcases he : enumFindWindow (snap t) target with _ | w2
    · simp [findAux, he] at h
    · simp [findAux, he] at h
      obtain ⟨rfl, rfl⟩ := h
      exact ⟨le_refl t, by omega, he⟩
  | succ left ih =>
    intro t w j h
    rcases he : enumFindWindow (snap t) target with _ | w2
    · have h2 : findAux snap target (t + 1) left = Except.ok (w, j) := by
        simpa [findAux, he] using h
      obtain ⟨h1, h2b, h3⟩ := ih (t + 1) w j h2
      exact ⟨by omega, by omega, h3⟩
    · simp [findAux, he] at h
      obtain ⟨rfl, rfl⟩ := h
      exact ⟨le_refl t, by omega, he⟩

/-- C7 counterexample: an invisible ownerless window of the target process is
returned on the very first poll, so visibility is not required. -/
theorem find_window_invisible_cex :
    findWindowByPid cex7Snap 5 6000 = Except.ok (⟨5, true, false, 7⟩, 0) ∧
    (⟨5, true, false, 7⟩ : EnumWindow).visible = false :=
  ⟨rfl, rfl⟩

/-- C7 amended: the enumeration accepts exactly the first ownerless window of
the given pid, whether or not it is visible; polling at 100 ms ticks, the call
errors out precisely when no such window exists in any snapshot up to the tick
just past the deadline, and a success returns an ownerless window of the pid
found at some tick inside that window. -/
theorem find_window_by_pid_spec (snap : Nat → List EnumWindow) (target timeoutMs : Nat) :
    (∀ ws, enumFindWindow ws target = ws.find? (fun w => w.pid == target && w.ownerNull)) ∧
    (findWindowByPid snap target timeoutMs = Except.error () ↔
      ∀ t, t ≤ timeoutMs / 100 + 1 → enumFindWindow (snap t) target = none) ∧
    (∀ w t, findWindowByPid snap target timeoutMs = Except.ok (w, t) →
      t ≤ timeoutMs / 100 + 1 ∧ enumFindWindow (snap t) target = some w ∧
      w.pid = target ∧ w.ownerNull = true) := by
  refine ⟨?_, ?_, ?_⟩
  · intro ws
    unfold enumFindWindow
    congr 1
    funext w
    exact enumAccept_eq target w
  · have h := findAux_error_iff snap target (timeoutMs / 100 + 1) 0
    unfold findWindowByPid
    rw [h]
    constructor
    · intro h2 t ht
      exact h2 t (Nat.zero_le t) (by omega)
    · intro h2 k h1 h2b
      exact h2 k (by omega)
  · intro w t h
    obtain ⟨h1, h2, h3⟩ := findAux_ok snap target (timeoutMs / 100 + 1) 0 w t h
    have hfind : (snap t).find? (enumAccept target) = some w := h3
    have hacc := List.find?_some hfind
    rw [enumAccept_eq] at hacc
    simp only [Bool.and_eq_true, beq_iff_eq] at hacc
    exact ⟨by omega, h3, hacc.1, hacc.2⟩

/-- Witness for the amended C7 statement at the single-window snapshot. -/
theorem find_window_by_pid_spec_witness :
    0 ≤ 6000 / 100 + 1 ∧ enumFindWindow (cex7Snap 0) 5 = some ⟨5, true, false, 7⟩ ∧
    (⟨5, true, false, 7⟩ : EnumWindow).pid = 5 ∧
    (⟨5, true, false, 7⟩ : EnumWindow).ownerNull = true :=
  (find_window_by_pid_spec cex7Snap 5 6000).2.2 ⟨5, true, false, 7⟩ 0 rfl

/-! ## Claim C6: the anchor substring is required -/

/-- C6 counterexample: a body with a well-formed flashVars attribute but no
anchor substring parses to none even though the attribute extractor finds the
value. -/
theorem parse_login3_anchor_cex :
    parseLogin3Value cex6Html = none ∧
    extractAttrValue cex6Html flashLower = some (strBytes "config=x&angel_uin=1") :=
  ⟨rfl, rfl⟩

/-- C6 amended: the anchor is mandatory, not merely restrictive: without the
anchor substring the parse returns none regardless of content, and with it the
search is performed first on the window starting at the anchor. -/
theorem parse_login3_anchor_required (html slice v : List Nat) :
    (findTail html anchorBytes = none → parseLogin3Value html = none) ∧
    (findTail html anchorBytes = some slice →
      extractAttrValue slice flashLower = some v → parseLogin3Value html = some v) := by
  constructor
  · intro h
    simp [parseLogin3Value, h]
  · intro h1 h2
    simp [parseLogin3Value, h1, h2]

/-- Witness for the amended C6 statement on a body containing the anchor. -/
theorem parse_login3_anchor_required_witness :
    parseLogin3Value okHtml = some (strBytes "config=x&angel_uin=1") :=
  (parse_login3_anchor_required okHtml okHtml (strBytes "config=x&angel_uin=1")).2 rfl rfl

/-! ## Claims C3 and C5: launch error propagation and swf_url lifecycle -/

/-- Trichotomy of launch_projector_auto: an early failure routed through
set_error, a late failure (size fallback or WPE initialization) that leaves
the state as it was after the optional projector stop, or full success
recording the projector and entering Running. -/
theorem launchProjectorAuto_cases (env : LaunchEnv) (s : AppState) :
    (∃ m, launchProjectorAuto env s =
        (setError (if s.projector.isSome then (stopProjectorFn s).1 else s) m,
         Except.error m) ∧
      earlyFails env s = true) ∨
    (∃ m, launchProjectorAuto env s =
        ((if s.projector.isSome then (stopProjectorFn s).1 else s), Except.error m) ∧
      earlyFails env s = false) ∨
    ((∃ pid hwnd style qq,
        launchProjectorAuto env s =
          ({ (if s.projector.isSome then (stopProjectorFn s).1 else s) with
              projector := some ⟨pid, hwnd, style⟩,
              status := AppStatus.Running,
              message := none,
              last_projector_rect := none,
              qq_num := some qq,
              wpe_interceptor := some () }, Except.ok ())) ∧
      earlyFails env s = false) := by
  rcases hsw : s.swf_url with _ | url
  · left
    exact ⟨strBytes "Missing main.swf URL.",
      by simp [launchProjectorAuto, hsw], by simp [earlyFails, hsw]⟩
  · rcases h1 : env.resolvePath with m | pth
    · left
      exact ⟨m, by simp [launchProjectorAuto, hsw, h1],
        by simp [earlyFails, exErr, hsw, h1]⟩
    · rcases h2 : env.launchProcess with m | pid
      · left
        exact ⟨m, by simp [launchProjectorAuto, hsw, h1, h2],
          by simp [earlyFails, exErr, hsw, h1, h2]⟩
      · rcases h3 : env.findWindow with m | child
        · left
          exact ⟨m, by simp [launchProjectorAuto, hsw, h1, h2, h3],
            by simp [earlyFails, exErr, hsw, h1, h2, h3]⟩
        · rcases h4 : env.mainHwnd with m | mh
          · left
            exact ⟨m, by simp [launchProjectorAuto, hsw, h1, h2, h3, h4],
              by simp [earlyFails, exErr, hsw, h1, h2, h3, h4]⟩
          · rcases h5 : env.attach with m | style
            · left
              exact ⟨m, by simp [launchProjectorAuto, hsw, h1, h2, h3, h4, h5],
                by simp [earlyFails, exErr, hsw, h1, h2, h3, h4, h5]⟩
            · have hearly : earlyFails env s = false := by
                simp [earlyFails, exErr, hsw, h1, h2, h3, h4, h5]
              rcases hgate : sizeGate env with m | u
              · right; left
                exact ⟨m,
                  by simp [launchProjectorAuto, hsw, h1, h2, h3, h4, h5, hgate], hearly⟩
              · rcases h8 : env.injector with m | u8
                · right; left
                  exact ⟨strBytes "Failed to create packet injector: " ++ m,
                    by simp [launchProjectorAuto, hsw, h1, h2, h3, h4, h5, hgate, h8],
                    hearly⟩
                · rcases h9 : env.interceptor with m | u9
                  · right; left
                    exact ⟨strBytes "Failed to create packet interceptor: " ++ m,
                      by simp [launchProjectorAuto, hsw, h1, h2, h3, h4, h5, hgate, h8, h9],
                      hearly⟩
                  · right; right
                    refine ⟨⟨pid, child, style, (env.qqFromUrl url).getD 0, ?_⟩, hearly⟩
                    simp [launchProjectorAuto, hsw, h1, h2, h3, h4, h5, hgate, h8, h9]

/-- C3 counterexample: a launch that fails creating the packet injector
returns an error, yet the state keeps its previous status (Launching here) and
a cleared message instead of status Error carrying the message. -/
theorem launch_error_wpe_cex :
    (launchProjectorAuto cex3Env cex3State).2 =
      Except.error (strBytes "Failed to create packet injector: " ++ strBytes "denied") ∧
    (launchProjectorAuto cex3Env cex3State).1.status = AppStatus.Launching ∧
    (launchProjectorAuto cex3Env cex3State).1.message = none :=
  ⟨rfl, rfl, rfl⟩

/-- C3 amended: failures in the early stages (missing URL, path resolution,
spawn, window find, main handle, attach) place the message into the state with
status forced to Error; failures of the window-size fallback and of packet
injector or interceptor creation return the error without touching the state
beyond the optional stop of a previous projector. -/
theorem launch_projector_error_spec (env : LaunchEnv) (s : AppState) :
    (∀ m, (launchProjectorAuto env s).2 = Except.error m → earlyFails env s = true →
      (launchProjectorAuto env s).1 =
        setError (if s.projector.isSome then (stopProjectorFn s).1 else s) m) ∧
    (∀ m, (launchProjectorAuto env s).2 = Except.error m → earlyFails env s = false →
      (launchProjectorAuto env s).1 =
        (if s.projector.isSome then (stopProjectorFn s).1 else s)) := by
  rcases launchProjectorAuto_cases env s with ⟨m0, hres, hearly⟩ | ⟨m0, hres, hearly⟩ |
    ⟨⟨pid, hwnd, style, qq, hres⟩, hearly⟩
  · constructor
    · intro m hm _
      rw [hres] at hm ⊢
      simp only [Except.error.injEq] at hm
      simp [hm]
    · intro m _ hfalse
      rw [hearly] at hfalse
      simp at hfalse
  · constructor
    · intro m _ htrue
      rw [hearly] at htrue
      simp at htrue
    · intro m hm _
      rw [hres]
  · constructor
    · intro m hm _
      rw [hres] at hm
      simp at hm
    · intro m hm _
      rw [hres] at hm
      simp at hm

/-- Witness for the amended C3 statement: the injector failure leaves the
state exactly as it was. -/
theorem launch_projector_error_spec_witness :
    (launchProjectorAuto cex3Env cex3State).1 =
      (if cex3State.projector.isSome then (stopProjectorFn cex3State).1 else cex3State) :=
  (launch_projector_error_spec cex3Env cex3State).2
    (strBytes "Failed to create packet injector: " ++ strBytes "denied") rfl rfl

/-- When a URL is already pending, handle_login3_response is a no-op for every
body: the pending URL blocks a second acceptance. -/
theorem handle_noop_of_pending (nonce html : List Nat) (s : AppState)
    (h : s.swf_url.isSome = true) : handleLogin3Response nonce html s = (s, false) := by
  unfold handleLogin3Response
  rcases hp : parseLogin3Value html with _ | v
  · rfl
  · cases hc : containsSub v (strBytes "config=") <;>
      cases hu : containsSub v (strBytes "angel_uin=") <;>
      simp only [hc, hu, Bool.not_true, Bool.not_false, Bool.or_true, Bool.true_or,
        Bool.or_false, Bool.false_or, if_true, if_false]
    rcases hb : buildSwfUrl nonce v with _ | url
    · rfl
    · by_cases hst : s.status = AppStatus.Running
      · simp [hst]
      · simp [hst, h]

/-- A scheduled launch pins down the accepted state: the URL is recorded, the
status is Launching, the message is cleared and the timer flag is set. -/
theorem handle_accepts_shape (nonce html : List Nat) (s : AppState)
    (h : (handleLogin3Response nonce html s).2 = true) :
    ∃ url, (handleLogin3Response nonce html s).1 =
      stopTimerOnly
        { s with swf_url := some url, status := AppStatus.Launching, message := none } := by
  unfold handleLogin3Response at h ⊢
  rcases hp : parseLogin3Value html with _ | v
  · simp only [hp] at h
    simp at h
  · simp only [hp] at h ⊢
    cases hc : containsSub v (strBytes "config=") <;>
      cases hu : containsSub v (strBytes "angel_uin=") <;>
      simp only [hc, hu, Bool.not_true, Bool.not_false, Bool.or_true, Bool.true_or,
        Bool.or_false, Bool.false_or, if_true, if_false] at h ⊢
    · simp at h
    · simp at h
    · simp at h
    · rcases hb : buildSwfUrl nonce v with _ | url
      · simp only [hb] at h
        simp at h
      · simp only [hb] at h ⊢
        by_cases hst : s.status = AppStatus.Running
        · simp only [if_pos hst] at h
          simp at h
        · simp only [if_neg hst] at h ⊢
          rcases hpend : s.swf_url.isSome with _ | _
          · simp only [hpend, Bool.false_eq_true, if_false] at h ⊢
            exact ⟨url, rfl⟩
          · simp only [hpend] at h
            simp at h

/-- C5 counterexample: a fully successful launch keeps the pending swf_url in
the state; it is not cleared by consumption. -/
theorem launch_keeps_swf_url_cex :
    (launchProjectorAuto cex5Env cex3State).2 = Except.ok () ∧
    (launchProjectorAuto cex5Env cex3State).1.swf_url = some (strBytes "u") :=
  ⟨rfl, rfl⟩

/-- C5 amended: once a capture accepted a URL, every further body is rejected
until the URL is cleared, so the URL is set at most once per cycle;
launch_projector_auto never modifies swf_url, successful or not, so a
successful launch leaves the URL pending; the URL is cleared on reset via
reset_to_login. -/
theorem swf_url_lifecycle :
    (∀ nonce html s nonce2 html2, (handleLogin3Response nonce html s).2 = true →
      handleLogin3Response nonce2 html2 (handleLogin3Response nonce html s).1 =
        ((handleLogin3Response nonce html s).1, false)) ∧
    (∀ env s, (launchProjectorAuto env s).1.swf_url = s.swf_url) ∧
    (∀ s, (resetToLoginState s).swf_url = none) := by
  refine ⟨?_, ?_, ?_⟩
  · intro nonce html s nonce2 html2 h
    obtain ⟨url, hshape⟩ := handle_accepts_shape nonce html s h
    apply handle_noop_of_pending
    rw [hshape]
    simp [stopTimerOnly]
  · intro env s
    rcases launchProjectorAuto_cases env s with ⟨m, hres, _⟩ | ⟨m, hres, _⟩ |
      ⟨⟨pid, hwnd, style, qq, hres⟩, _⟩ <;>
    rw [hres] <;>
    by_cases hp : s.projector.isSome <;>
    simp [hp, setError, stopProjectorFn]
  · intro s
    simp [resetToLoginState]

/-- Witness for the amended C5 statement: after an accepted capture, a second
valid body is a no-op. -/
theorem swf_url_lifecycle_witness :
    handleLogin3Response (strBytes "1") cex6Html
        ((handleLogin3Response (strBytes "0") okHtml baseState).1) =
      (((handleLogin3Response (strBytes "0") okHtml baseState).1), false) :=
  swf_url_lifecycle.1 (strBytes "0") okHtml baseState (strBytes "1") cex6Html rfl

/-! ## Claim C1: handle_login3_response acceptance -/

/-- A successful substring search means the head byte of the needle occurs in
the haystack. -/
theorem mem_head_of_findTail (b : Nat) (n : List Nat) :
    ∀ (hay s : List Nat), findTail hay (b :: n) = some s → b ∈ hay := by
  intro hay
  induction hay with
  | nil =>
    intro s h
    simp [findTail] at h
  | cons a t ih =>
    intro s h
    unfold findTail at h
    by_cases hp : (b :: n).isPrefixOf (a :: t) = true
    · have hpre : (b :: n) <+: (a :: t) := List.isPrefixOf_iff_prefix.mp hp
      obtain ⟨r, hr⟩ := hpre
      have hb : b = a := by
        have := congrArg (fun l => l.head?) hr
        simpa using this
      subst hb
      exact List.mem_cons_self b t
    · rw [if_neg hp] at h
      exact List.mem_cons_of_mem a (ih s h)

/-- Membership survives dropWhile for an element the predicate rejects. -/
theorem mem_dropWhile_of_mem {p : Nat → Bool} :
    ∀ (l : List Nat) (a : Nat), a ∈ l → p a = false → a ∈ l.dropWhile p := by
  intro l
  induction l with
  | nil =>
    intro a h
    simp at h
  | cons x t ih =>
    intro a h hp
    by_cases hx : p x = true
    · simp only [List.dropWhile_cons, hx, if_true]
      rcases List.mem_cons.mp h with rfl | ht
      · rw [hx] at hp
        cases hp
      · exact ih a ht hp
    · have hx2 : p x = false := by
        revert hx
        cases p x <;> simp
      simp only [List.dropWhile_cons, hx2, Bool.false_eq_true, if_false]
      exact h

/-- A value containing the config marker always yields a URL: the letter c of
config survives trimming and prefix stripping, so the trimmed blob is never
empty. -/
theorem buildSwfUrl_isSome (nonce v : List Nat)
    (h : containsSub v (strBytes "config=") = true) :
    (buildSwfUrl nonce v).isSome = true := by
  have h99 : (99 : Nat) ∈ v := by
    unfold containsSub at h
    rcases hf : findTail v (strBytes "config=") with _ | s
    · rw [hf] at h
      simp at h
    · have hsplit : strBytes "config=" = 99 :: strBytes "onfig=" := by decide
      rw [hsplit] at hf
      exact mem_head_of_findTail 99 (strBytes "onfig=") v s hf
  have h1 : (99 : Nat) ∈ trimBytes v := by
    unfold trimBytes
    have e1 : (99 : Nat) ∈ v.dropWhile isTrimWs :=
      mem_dropWhile_of_mem v 99 h99 (by decide)
    have e2 : (99 : Nat) ∈ (v.dropWhile isTrimWs).reverse := by simpa using e1
    have e3 := mem_dropWhile_of_mem (p := isTrimWs) _ 99 e2 (by decide)
    simpa using e3
  have h2 := mem_dropWhile_of_mem (p := fun b => b == 63) _ 99 h1 (by decide)
  have h3 := mem_dropWhile_of_mem (p := fun b => b == 38) _ 99 h2 (by decide)
  have hne : ((trimBytes v).dropWhile (fun b => b == 63)).dropWhile (fun b => b == 38) ≠ [] :=
    List.ne_nil_of_mem h3
  unfold buildSwfUrl
  rw [if_neg]
  · rfl
  · simp only [List.isEmpty_iff]
    exact hne

/-- Dichotomy of handle_login3_response: either the acceptance condition holds
and the call installs the URL, enters Launching, clears the message, sets the
timer flag and schedules the launch, or it does not and the call returns the
state untouched without scheduling anything. -/
theorem handle_dichotomy (nonce html : List Nat) (s : AppState) :
    (acceptB html s = true ∧ ∃ url, handleLogin3Response nonce html s =
      ({ s with swf_url := some url, status := AppStatus.Launching, message := none,
                capture_stop := s.capture_stop.map (fun _ => true) }, true)) ∨
    (acceptB html s = false ∧ handleLogin3Response nonce html s = (s, false)) := by
  unfold handleLogin3Response acceptB
  rcases hp : parseLogin3Value html with _ | v
  · right
    exact ⟨rfl, rfl⟩
  · simp only [hp]
    cases hc : containsSub v (strBytes "config=") <;>
      cases hu : containsSub v (strBytes "angel_uin=") <;>
      simp only [hc, hu, Bool.not_true, Bool.not_false, Bool.or_true, Bool.true_or,
        Bool.or_false, Bool.false_or, Bool.true_and, Bool.false_and, Bool.and_true,
        Bool.and_false, if_true, if_false]
    · right
      constructor <;> trivial
    · right
      constructor <;> trivial
    · right
      constructor <;> trivial
    · rcases hb : buildSwfUrl nonce v with _ | url
      · exact absurd (buildSwfUrl_isSome nonce v hc) (by simp [hb])
      · by_cases hst : s.status = AppStatus.Running
        · right
          constructor
          · simp [hst]
          · simp [hst]
        · rcases hswf : s.swf_url with _ | u
          · left
            constructor
            · simp [hst, hswf]
            · refine ⟨url, ?_⟩
              simp only [hswf, Option.isSome_none, Bool.false_eq_true, if_false, if_neg hst]
              simp [stopTimerOnly, hswf]
          · right
            constructor
            · simp [hst, hswf]
            · simp [hst, hswf]

/-- C1: the state is mutated and the launch scheduled exactly when a value
parses out of the body, it contains both the config and angel_uin markers, the
status is not Running and no URL is pending; the mutation installs the URL,
moves the status to Launching with a cleared message and a set timer flag; in
every other case the state is returned untouched with no launch; and after an
acceptance every further call is a no-op, so at most one URL is accepted and
at most one launch scheduled per capture session. -/
theorem handle_login3_response_spec (nonce html : List Nat) (s : AppState) :
    ((handleLogin3Response nonce html s).2 = acceptB html s) ∧
    (acceptB html s = false → (handleLogin3Response nonce html s).1 = s) ∧
    (acceptB html s = true → ∃ url,
      (handleLogin3Response nonce html s).1 =
        { s with swf_url := some url, status := AppStatus.Launching, message := none,
                 capture_stop := s.capture_stop.map (fun _ => true) }) ∧
    (∀ nonce2 html2, (handleLogin3Response nonce html s).2 = true →
      handleLogin3Response nonce2 html2 (handleLogin3Response nonce html s).1 =
        ((handleLogin3Response nonce html s).1, false)) := by
  rcases handle_dichotomy nonce html s with ⟨ha, url, hres⟩ | ⟨ha, hres⟩
  · refine ⟨by rw [hres, ha], ?_, ?_, ?_⟩
    · intro hfalse
      rw [ha] at hfalse
      cases hfalse
    · intro _
      exact ⟨url, by rw [hres]⟩
    · intro nonce2 html2 _
      rw [hres]
      exact handle_noop_of_pending nonce2 html2 _ (by simp)
  · refine ⟨by rw [hres, ha], ?_, ?_, ?_⟩
    · intro _
      rw [hres]
    · intro htrue
      rw [ha] at htrue
      cases htrue
    · intro nonce2 html2 htrue
      rw [hres] at htrue
      simp at htrue

/-- Witness for C1: a valid body on a quiescent state is accepted and the
mutation shape is realized. -/
theorem handle_login3_response_spec_witness :
    ∃ url, (handleLogin3Response (strBytes "0") okHtml baseState).1 =
      { baseState with swf_url := some url, status := AppStatus.Launching, message := none,
                       capture_stop := baseState.capture_stop.map (fun _ => true) } :=
  (handle_login3_response_spec (strBytes "0") okHtml baseState).2.2.1 rfl

/-! ## Claim C8: redact_tokens -/

/-- Byte literal for the first sensitive key. -/
theorem strBytes_angel_uin : strBytes "angel_uin" = [97, 110, 103, 101, 108, 95, 117, 105, 110] := by
  decide

/-- Byte literal for the second sensitive key. -/
theorem strBytes_angel_key : strBytes "angel_key" = [97, 110, 103, 101, 108, 95, 107, 101, 121] := by
  decide

/-- Byte literal for the third sensitive key. -/
theorem strBytes_skey : strBytes "skey" = [115, 107, 101, 121] := by
  decide

/-- Byte literal for the fourth sensitive key. -/
theorem strBytes_pskey : strBytes "pskey" = [112, 115, 107, 101, 121] := by
  decide

/-- dropWhile over an appended block whose members all satisfy the predicate. -/
theorem dropWhile_append_all {p : Nat → Bool} :
    ∀ (v l : List Nat), (∀ b ∈ v, p b = true) →
      List.dropWhile p (v ++ l) = List.dropWhile p l := by
  intro v
  induction v with
  | nil =>
    intro l _
    rfl
  | cons x t ih =>
    intro l h
    have hx : p x = true := h x (List.mem_cons_self x t)
    simp only [List.cons_append, List.dropWhile_cons, hx, if_true]
    exact ih l (fun b hb => h b (List.mem_cons_of_mem x hb))

/-- At the start of a sensitive key followed by the equals byte, the scanner
matches exactly that key, whichever of the four it is. -/
theorem matchedKey_self (k : List Nat) (hk : k ∈ sensitiveKeys) (t : List Nat) :
    matchedKey (k ++ 61 :: t) = some k := by
  fin_cases hk <;>
    simp [matchedKey, sensitiveKeys, strBytes_angel_uin, strBytes_angel_key,
      strBytes_skey, strBytes_pskey, List.isPrefixOf]

/-- No sensitive key starts at a delimiter byte. -/
theorem matchedKey_delim_none (d : Nat) (rest : List Nat) (hd : isDelimByte d = true) :
    matchedKey (d :: rest) = none := by
  unfold isDelimByte at hd
  simp only [Bool.or_eq_true, beq_iff_eq] at hd
  rcases hd with ((((rfl | rfl) | rfl) | rfl) | rfl) <;>
    simp [matchedKey, sensitiveKeys, strBytes_angel_uin, strBytes_angel_key,
      strBytes_skey, strBytes_pskey, List.isPrefixOf]

/-- Dropping a key and the equals byte off the front. -/
theorem drop_key_eq : ∀ (k w : List Nat), (k ++ 61 :: w).drop (k.length + 1) = w := by
  intro k
  induction k with
  | nil =>
    intro w
    simp
  | cons a ks ih =>
    intro w
    simp only [List.cons_append, List.length_cons, List.drop_succ_cons]
    exact ih w

/-- Text with no sensitive-key occurrence at any position is returned
verbatim. -/
theorem redact_id (l : List Nat) (h : ∀ i, matchedKey (l.drop i) = none) :
    redactTokens l = l := by
  induction l with
  | nil => simp [redactTokens]
  | cons b bs ih =>
    have h0 := h 0
    simp only [List.drop_zero] at h0
    simp only [redactTokens, h0]
    rw [ih (fun i => by
      have hi := h (i + 1)
      simpa [List.drop_succ_cons] using hi)]

/-- Masking step: a sensitive key, the equals byte, a delimiter-free value and
a delimiter produce the key, the equals byte and a single star, the value
never appearing; redaction continues at the delimiter. -/
theorem redact_mask (k : List Nat) (hk : k ∈ sensitiveKeys) (v : List Nat) (d : Nat)
    (rest : List Nat)
    (hv : ∀ b ∈ v, isDelimByte b = false) (hd : isDelimByte d = true) :
    redactTokens (k ++ 61 :: (v ++ d :: rest)) = k ++ 61 :: 42 :: d :: redactTokens rest := by
  have hm : matchedKey (k ++ 61 :: (v ++ d :: rest)) = some k := matchedKey_self k hk _
  have hne : k ≠ [] := by
    fin_cases hk <;> decide
  rcases hk2 : k with _ | ⟨a, ks⟩
  · exact absurd hk2 hne
  · subst hk2
    have hcons : (a :: ks) ++ 61 :: (v ++ d :: rest) =
        a :: (ks ++ 61 :: (v ++ d :: rest)) := by simp
    rw [hcons] at hm ⊢
    simp only [redactTokens, hm]
    have hdrop : (a :: (ks ++ 61 :: (v ++ d :: rest))).drop ((a :: ks).length + 1) =
        v ++ d :: rest := by
      rw [← hcons]
      exact drop_key_eq (a :: ks) (v ++ d :: rest)
    rw [hdrop]
    have hskip : List.dropWhile (fun x => !isDelimByte x) (v ++ d :: rest) = d :: rest := by
      rw [dropWhile_append_all v (d :: rest) (fun b hb => by simp [hv b hb])]
      simp [List.dropWhile_cons, hd]
    rw [hskip]
    have hstep : redactTokens (d :: rest) = d :: redactTokens rest := by
      simp only [redactTokens, matchedKey_delim_none d rest hd]
    rw [hstep]
    simp

/-- Masking at the end of the text: the skip consumes the rest of the text and
only the star is emitted. -/
theorem redact_mask_end (k : List Nat) (hk : k ∈ sensitiveKeys) (v : List Nat)
    (hv : ∀ b ∈ v, isDelimByte b = false) :
    redactTokens (k ++ 61 :: v) = k ++ [61, 42] := by
  have hm : matchedKey (k ++ 61 :: v) = some k := matchedKey_self k hk v
  have hne : k ≠ [] := by
    fin_cases hk <;> decide
  rcases hk2 : k with _ | ⟨a, ks⟩
  · exact absurd hk2 hne
  · subst hk2
    have hcons : (a :: ks) ++ 61 :: v = a :: (ks ++ 61 :: v) := by simp
    rw [hcons] at hm ⊢
    simp only [redactTokens, hm]
    have hdrop : (a :: (ks ++ 61 :: v)).drop ((a :: ks).length + 1) = v := by
      rw [← hcons]
      exact drop_key_eq (a :: ks) v
    rw [hdrop]
    have hskip : List.dropWhile (fun x => !isDelimByte x) v = [] := by
      have := dropWhile_append_all (p := fun x => !isDelimByte x) v []
        (fun b hb => by simp [hv b hb])
      simpa using this
    rw [hskip]
    simp [redactTokens]

/-- C8: the concrete redaction example holds; text without any sensitive key
occurrence is returned unchanged (only listed keys are masked); and every
occurrence of a listed key followed by the equals byte has its value replaced
by a single star up to the next delimiter (or the end of text), the value
never appearing in the output. -/
theorem redact_tokens_spec :
    (redactTokens (strBytes "angel_key=SECRET123&foo=bar") =
      strBytes "angel_key=*&foo=bar") ∧
    (∀ l, (∀ i, matchedKey (l.drop i) = none) → redactTokens l = l) ∧
    (∀ k, k ∈ sensitiveKeys → ∀ v d rest, (∀ b ∈ v, isDelimByte b = false) →
      isDelimByte d = true →
      redactTokens (k ++ 61 :: (v ++ d :: rest)) = k ++ 61 :: 42 :: d :: redactTokens rest) ∧
    (∀ k, k ∈ sensitiveKeys → ∀ v, (∀ b ∈ v, isDelimByte b = false) →
      redactTokens (k ++ 61 :: v) = k ++ [61, 42]) := by
  refine ⟨?_, redact_id, redact_mask, redact_mask_end⟩
  simp [redactTokens, matchedKey, sensitiveKeys, strBytes, List.isPrefixOf, isDelimByte]

/-- Witness for C8 at a concrete masked key with trailing text. -/
theorem redact_tokens_spec_witness :
    redactTokens (strBytes "skey" ++ 61 :: (strBytes "abc" ++ 38 :: strBytes "x=1")) =
      strBytes "skey" ++ 61 :: 42 :: 38 :: redactTokens (strBytes "x=1") :=
  redact_tokens_spec.2.2.1 (strBytes "skey") (by decide) (strBytes "abc") 38 (strBytes "x=1")
    (by decide) (by decide)
